import Mathlib

/-!
Verification development for the AJVRE multifamily deal analyzer
(`src/deal_analyzer.py`, function `analyze_deal`).

The Python source works on floats; here the numeric domain is `ℚ` (exact
arithmetic).  Python raises `ZeroDivisionError` on `x / 0`, so each division
the source performs WITHOUT a guard is embedded through `pydiv`, which returns
`none` on a zero denominator; `analyze_deal` therefore returns
`Option DealMetrics`, with `none` standing for the raised exception.  The
divisions the source guards with a truthiness test (`... if denom else 0`)
never divide by zero and are embedded as plain conditionals.
-/

namespace DealAnalyzer

/-- Entry of the `LOAN_PRODUCTS` table: loan term in years and whether the
product is interest-only (source lines 9-14). -/
structure LoanInfo where
  term : ℕ
  io : Bool
deriving DecidableEq, Repr

/-- The four keys of the `LOAN_PRODUCTS` dictionary (source lines 9-14). -/
inductive LoanProduct
  | thirtyYearFixed
  | tenOneArm
  | sevenOneArm
  | fiveOneInterestOnly
deriving DecidableEq, Repr

/-- The `LOAN_PRODUCTS` dictionary (source lines 9-14): every product has a
30-year term and only `5/1 I/O` is interest-only. -/
def LOAN_PRODUCTS : LoanProduct → LoanInfo
  | .thirtyYearFixed => ⟨30, false⟩
  | .tenOneArm => ⟨30, false⟩
  | .sevenOneArm => ⟨30, false⟩
  | .fiveOneInterestOnly => ⟨30, true⟩

/-- The argument record of `analyze_deal` (source lines 16-31). -/
structure DealInputs where
  purchase_price : ℚ
  down_payment_pct : ℚ
  rents : List ℚ
  market_rents : List ℚ
  use_market_rents : Bool
  interest_rate : ℚ
  expense_ratio : ℚ
  vacancy_rate : ℚ
  loan_product : LoanProduct
  renovation_cost_per_unit : ℚ
  capex_total : ℚ
  mgmt_override : Bool
  rent_growth_enabled : Bool
  annual_rent_increase_pct : ℚ
deriving DecidableEq, Repr

/-- One record appended to `projections` (source line 81):
`{"Year": year, "DSCR": future_dscr, "Cash Flow": future_cash_flow}`. -/
structure YearProjection where
  year : ℕ
  dscr : ℚ
  cash_flow : ℚ
deriving DecidableEq, Repr

/-- The result dictionary of `analyze_deal` (source lines 83-95). -/
structure DealMetrics where
  noi : ℚ
  dscr : ℚ
  annual_cash_flow : ℚ
  cap_rate : ℚ
  coc_return : ℚ
  total_roi : ℚ
  breakeven_rent : ℚ
  monthly_pi : ℚ
  cash_invested : ℚ
  principal_paydown : ℚ
  projections : List YearProjection
deriving DecidableEq, Repr

/-- Python division `a / b`: raises `ZeroDivisionError` (here `none`) when
`b = 0`, otherwise returns `a / b`. -/
def pydiv (a b : ℚ) : Option ℚ :=
  if b = 0 then none else some (a / b)

/-- `units = len(rents)` (source line 32). -/
def units (i : DealInputs) : ℕ := i.rents.length

/-- `applied_rents = market_rents if use_market_rents else rents`
(source line 37). -/
def applied_rents (i : DealInputs) : List ℚ :=
  if i.use_market_rents then i.market_rents else i.rents

/-- `gross_rent_annual = sum(applied_rents) * 12` (source line 38). -/
def gross_rent_annual (i : DealInputs) : ℚ := (applied_rents i).sum * 12

/-- `vacancy_loss = gross_rent_annual * vacancy_rate` (source line 39). -/
def vacancy_loss (i : DealInputs) : ℚ := gross_rent_annual i * i.vacancy_rate

/-- `gross_operating_income = gross_rent_annual - vacancy_loss`
(source line 40). -/
def gross_operating_income (i : DealInputs) : ℚ :=
  gross_rent_annual i - vacancy_loss i

/-- `base_expenses = gross_operating_income * expense_ratio`, plus
`gross_operating_income * 0.08` when `mgmt_override` (source lines 42-44). -/
def base_expenses (i : DealInputs) : ℚ :=
  let b := gross_operating_income i * i.expense_ratio
  if i.mgmt_override then b + gross_operating_income i * (8 / 100) else b

/-- `loan_amount = purchase_price * (1 - down_payment_pct)` (source line 46). -/
def loan_amount (i : DealInputs) : ℚ :=
  i.purchase_price * (1 - i.down_payment_pct)

/-- `monthly_interest_rate = interest_rate / 12` (source line 47). -/
def monthly_interest_rate (i : DealInputs) : ℚ := i.interest_rate / 12

/-- `num_payments = loan_term_years * 12` (source lines 34, 48). -/
def num_payments (i : DealInputs) : ℕ :=
  (LOAN_PRODUCTS i.loan_product).term * 12

/-- Monthly principal-and-interest payment (source lines 50-53).  The
interest-only branch is a plain product; the amortizing branch performs the
annuity-formula division, which the source does NOT guard, so a zero
denominator `(1+r)^n - 1` raises (returns `none`). -/
def monthlyPi? (i : DealInputs) : Option ℚ :=
  if (LOAN_PRODUCTS i.loan_product).io then
    some (loan_amount i * monthly_interest_rate i)
  else
    pydiv
      (loan_amount i *
        (monthly_interest_rate i * (1 + monthly_interest_rate i) ^ num_payments i))
      ((1 + monthly_interest_rate i) ^ num_payments i - 1)

/-- The `future_noi` of one iteration of the projection loop
(source lines 70-78): the grown rent `current_rent * rent_growth_rate ** year`,
income after vacancy, minus expenses (with the optional 8% surcharge). -/
def futureNoi (i : DealInputs) (year : ℕ) : ℚ :=
  let future_rent := (applied_rents i).sum * (1 + i.annual_rent_increase_pct) ^ year
  let future_income := future_rent * 12 - future_rent * 12 * i.vacancy_rate
  let fe := future_income * i.expense_ratio
  let future_expenses := if i.mgmt_override then fe + future_income * (8 / 100) else fe
  future_income - future_expenses

/-- One iteration of the projection loop (source lines 73-81).  The
`future_dscr = future_noi / annual_pi` division is NOT guarded in the source,
so `annual_pi = 0` raises (returns `none`). -/
def projStep (i : DealInputs) (annual_pi : ℚ) (year : ℕ) : Option YearProjection :=
  let future_cash_flow := futureNoi i year - annual_pi
  match pydiv (futureNoi i year) annual_pi with
  | none => none
  | some future_dscr => some ⟨year, future_dscr, future_cash_flow⟩

/-- The projection `for` loop (source lines 68-81), over an explicit list of
years; an exception in any iteration aborts the whole call. -/
def projLoop (i : DealInputs) (annual_pi : ℚ) : List ℕ → Option (List YearProjection)
  | [] => some []
  | y :: ys =>
    match projStep i annual_pi y with
    | none => none
    | some p =>
      match projLoop i annual_pi ys with
      | none => none
      | some rest => some (p :: rest)

/-- The `projections` list: the loop runs over `range(1, 11)` only when
`rent_growth_enabled` (source lines 68-72). -/
def projectionsOf? (i : DealInputs) (annual_pi : ℚ) : Option (List YearProjection) :=
  if i.rent_growth_enabled then projLoop i annual_pi (List.range' 1 10) else some []

/-- Assembly of the result record from `monthly_pi` and the projection list
(source lines 55-66 and 83-95).  Every division here is guarded in the source
by a truthiness test on its denominator, hence total. -/
def metricsOf (i : DealInputs) (monthly_pi : ℚ) (projections : List YearProjection) :
    DealMetrics :=
  let annual_pi := monthly_pi * 12
  let noi := gross_operating_income i - base_expenses i
  let dscr := if annual_pi = 0 then 0 else noi / annual_pi
  let cash_invested :=
    i.purchase_price * i.down_payment_pct +
      i.renovation_cost_per_unit * (units i : ℚ) + i.capex_total
  let annual_cash_flow := noi - annual_pi
  let principal_paydown :=
    if (LOAN_PRODUCTS i.loan_product).io then 0
    else annual_pi - monthly_interest_rate i * loan_amount i * 12
  let cap_rate := if i.purchase_price = 0 then 0 else noi / i.purchase_price
  let coc_return := if cash_invested = 0 then 0 else annual_cash_flow / cash_invested
  let total_roi :=
    if cash_invested = 0 then 0 else (annual_cash_flow + principal_paydown) / cash_invested
  let breakeven_rent :=
    if units i = 0 then 0 else (annual_pi + base_expenses i) / ((units i : ℚ) * 12)
  { noi := noi
    dscr := dscr
    annual_cash_flow := annual_cash_flow
    cap_rate := cap_rate
    coc_return := coc_return
    total_roi := total_roi
    breakeven_rent := breakeven_rent
    monthly_pi := monthly_pi
    cash_invested := cash_invested
    principal_paydown := principal_paydown
    projections := projections }

/-- `analyze_deal` (source lines 16-95): computes the monthly payment, then
the projection list, then assembles the result; `none` models an uncaught
`ZeroDivisionError`. -/
def analyze_deal (i : DealInputs) : Option DealMetrics :=
  match monthlyPi? i with
  | none => none
  | some monthly_pi =>
    match projectionsOf? i (monthly_pi * 12) with
    | none => none
    | some projections => some (metricsOf i monthly_pi projections)

/-- Modelled from the spec: the impounds inputs (`impounds_enabled`,
`tax_rate`, `insurance_annual`) and the quantity `annual_taxes` are absent
from `src/deal_analyzer.py` (they come from other variants of the analyzer);
spec section 4 step 4 defines `annual_taxes = purchase_price * tax_rate`. -/
def annual_taxes (purchase_price tax_rate : ℚ) : ℚ := purchase_price * tax_rate

/-- Modelled from the spec: `monthly_impounds` is absent from
`src/deal_analyzer.py`; spec section 4 step 4 defines
`monthly_impounds = (annual_taxes + insurance_annual)/12 if impounds_enabled
else 0`. -/
def monthly_impounds (impounds_enabled : Bool)
    (purchase_price tax_rate insurance_annual : ℚ) : ℚ :=
  if impounds_enabled then
    (annual_taxes purchase_price tax_rate + insurance_annual) / 12
  else 0

/-- Modelled from the spec: `monthly_total_payment` is absent from
`src/deal_analyzer.py`; spec section 4 step 4 defines
`monthly_total_payment = monthly_debt + monthly_impounds`. -/
def monthly_total_payment (monthly_debt impounds : ℚ) : ℚ :=
  monthly_debt + impounds

section ConcreteInputs

/-- A concrete deal: one unit renting 1, price 100, 25% down, interest-only
loan at annual rate 12 (so monthly rate 1), no expenses, no vacancy, no rent
growth. -/
def demoInput : DealInputs :=
  { purchase_price := 100, down_payment_pct := 1/4, rents := [1], market_rents := [2],
    use_market_rents := false, interest_rate := 12, expense_ratio := 0, vacancy_rate := 0,
    loan_product := .fiveOneInterestOnly, renovation_cost_per_unit := 0, capex_total := 0,
    mgmt_override := false, rent_growth_enabled := false, annual_rent_increase_pct := 0 }

/-- The analyzer's output on `demoInput`. -/
def demoOut : DealMetrics :=
  { noi := 12, dscr := 1/75, annual_cash_flow := -888, cap_rate := 3/25,
    coc_return := -888/25, total_roi := -888/25, breakeven_rent := 75,
    monthly_pi := 75, cash_invested := 25, principal_paydown := 0, projections := [] }

/-- `demoInput` with the rent-growth projection enabled (growth rate 0). -/
def demoGrowthInput : DealInputs := { demoInput with rent_growth_enabled := true }

/-- The analyzer's output on `demoGrowthInput`: the same metrics plus ten
projection records. -/
def demoGrowthOut : DealMetrics :=
  { demoOut with projections := (List.range' 1 10).map fun y => ⟨y, 1/75, -888⟩ }

/-- `demoInput` with identical current and market rents. -/
def demoEqualRentsInput : DealInputs := { demoInput with market_rents := [1] }

/-- An amortizing loan at interest rate 0: the input on which the source's
unguarded annuity division (line 53) divides zero by zero. -/
def zeroRateAmortizingInput : DealInputs :=
  { demoInput with loan_product := .thirtyYearFixed, interest_rate := 0 }

/-- A fully cash-financed deal (`down_payment_pct = 1`, so `loan_amount = 0`
and `annual_pi = 0`) with rent growth enabled: the input on which the
source's unguarded `future_dscr` division (line 80) divides by zero. -/
def zeroDebtGrowthInput : DealInputs :=
  { demoInput with down_payment_pct := 1, rent_growth_enabled := true }

/-- A deal with zero purchase price, full down payment and no units: every
guarded denominator of the source is zero at once. -/
def degenerateInput : DealInputs :=
  { demoInput with
    purchase_price := 0, down_payment_pct := 1, rents := [], market_rents := [] }

/-- The analyzer's output on `degenerateInput`: every metric is zero. -/
def degenerateOut : DealMetrics :=
  { noi := 0, dscr := 0, annual_cash_flow := 0, cap_rate := 0, coc_return := 0,
    total_roi := 0, breakeven_rent := 0, monthly_pi := 0, cash_invested := 0,
    principal_paydown := 0, projections := [] }

end ConcreteInputs

section Lemmas

/-- Evaluation of the analyzer on `demoInput`. -/
lemma analyze_demoInput_eval : analyze_deal demoInput = some demoOut := by
  simp only [analyze_deal, monthlyPi?, projectionsOf?, metricsOf, demoInput, demoOut,
    LOAN_PRODUCTS, loan_amount, monthly_interest_rate, num_payments, units,
    gross_operating_income, gross_rent_annual, vacancy_loss, base_expenses,
    applied_rents, pydiv]
  norm_num

/-- Evaluation of the analyzer on `demoGrowthInput`. -/
lemma analyze_demoGrowthInput_eval :
    analyze_deal demoGrowthInput = some demoGrowthOut := by
  simp only [analyze_deal, monthlyPi?, projectionsOf?, metricsOf, demoGrowthInput,
    demoInput, demoGrowthOut, demoOut, LOAN_PRODUCTS, loan_amount,
    monthly_interest_rate, num_payments, units, gross_operating_income,
    gross_rent_annual, vacancy_loss, base_expenses, applied_rents, pydiv,
    projLoop, projStep, futureNoi, List.range']
  norm_num

/-- Evaluation of the analyzer on `degenerateInput`. -/
lemma analyze_degenerateInput_eval :
    analyze_deal degenerateInput = some degenerateOut := by
  simp only [analyze_deal, monthlyPi?, projectionsOf?, metricsOf, degenerateInput,
    demoInput, degenerateOut, LOAN_PRODUCTS, loan_amount, monthly_interest_rate,
    num_payments, units, gross_operating_income, gross_rent_annual, vacancy_loss,
    base_expenses, applied_rents, pydiv]
  norm_num

/-- Inversion principle for a successful `analyze_deal` call. -/
lemma analyze_deal_eq_some_iff (i : DealInputs) (m : DealMetrics) :
    analyze_deal i = some m ↔
      ∃ mp pr, monthlyPi? i = some mp ∧ projectionsOf? i (mp * 12) = some pr ∧
        m = metricsOf i mp pr := by
  unfold analyze_deal
  cases hmp : monthlyPi? i with
  | none => simp
  | some mp =>
    cases hpr : projectionsOf? i (mp * 12) with
    | none => simp [hpr]
    | some pr => simp [hpr, eq_comm]

/-- With a nonzero `annual_pi`, one loop iteration succeeds and produces the
record for its year. -/
lemma projStep_of_ne (i : DealInputs) (a : ℚ) (y : ℕ) (ha : a ≠ 0) :
    projStep i a y = some ⟨y, futureNoi i y / a, futureNoi i y - a⟩ := by
  simp [projStep, pydiv, ha]

/-- With `annual_pi = 0`, every loop iteration raises. -/
lemma projStep_of_zero (i : DealInputs) (y : ℕ) :
    projStep i 0 y = none := by
  simp [projStep, pydiv]

/-- With a nonzero `annual_pi`, the loop maps every year to its record. -/
lemma projLoop_of_ne (i : DealInputs) (a : ℚ) (ha : a ≠ 0) (ys : List ℕ) :
    projLoop i a ys =
      some (ys.map fun y => ⟨y, futureNoi i y / a, futureNoi i y - a⟩) := by
  induction ys with
  | nil => rfl
  | cons y ys ih => simp [projLoop, projStep_of_ne i a y ha, ih]

/-- The years of a successfully produced projection list are exactly the
years iterated over, in order. -/
lemma projLoop_map_year (i : DealInputs) (a : ℚ) (ys : List ℕ)
    (pr : List YearProjection) (h : projLoop i a ys = some pr) :
    pr.map YearProjection.year = ys := by
  induction ys generalizing pr with
  | nil =>
    simp [projLoop] at h
    simp [← h]
  | cons y ys ih =>
    unfold projLoop at h
    cases hs : projStep i a y with
    | none => rw [hs] at h; exact absurd h (by simp)
    | some p =>
      rw [hs] at h
      cases hr : projLoop i a ys with
      | none => rw [hr] at h; exact absurd h (by simp)
      | some rest =>
        rw [hr] at h
        have hy : p.year = y := by
          by_cases ha : a = 0
          · rw [ha, projStep_of_zero] at hs; exact absurd hs (by simp)
          · rw [projStep_of_ne i a y ha] at hs
            cases hs; rfl
        cases h
        simp [hy, ih rest hr]

end Lemmas

/-- Claim C1: the spec requires that an amortizing loan with
`monthly_rate = 0` not raise and yield `monthly_debt = loan_amount / n`; the
source (line 53) performs the annuity division unguarded, so at interest rate
0 the denominator `(1+0)^360 - 1` is zero and the call raises
`ZeroDivisionError` (modelled as `none`) instead of returning a result. -/
theorem C1_zero_rate_amortizing_raises :
    analyze_deal zeroRateAmortizingInput = none := by
  simp only [analyze_deal, monthlyPi?, projectionsOf?, metricsOf,
    zeroRateAmortizingInput, demoInput, LOAN_PRODUCTS, loan_amount,
    monthly_interest_rate, num_payments, pydiv]
  norm_num

/-- Claim C2: the spec requires `future_dscr = 0` when
`annual_debt_service = 0`; the source (line 80) divides `future_noi /
annual_pi` unguarded, so a fully cash-financed deal (`down_payment_pct = 1`,
hence `annual_pi = 0`) with rent growth enabled raises `ZeroDivisionError`
(modelled as `none`) instead of producing projections with `future_dscr = 0`. -/
theorem C2_zero_debt_growth_raises :
    analyze_deal zeroDebtGrowthInput = none := by
  simp only [analyze_deal, monthlyPi?, projectionsOf?, metricsOf,
    zeroDebtGrowthInput, demoInput, LOAN_PRODUCTS, loan_amount,
    monthly_interest_rate, num_payments, units, gross_operating_income,
    gross_rent_annual, vacancy_loss, base_expenses, applied_rents, pydiv,
    projLoop, projStep, futureNoi, List.range']
  norm_num

/-- Claim C3: impounds (modelled from the spec, absent from the source) are
additive to the cash-flow-facing payment — `monthly_impounds =
(annual_taxes + insurance_annual)/12` when enabled, `0` when disabled, and
`monthly_total_payment = monthly_debt + monthly_impounds` — and are never in
the DSCR denominator: the returned `dscr` is determined by `noi` and the P&I
payment `monthly_pi * 12` alone. -/
theorem C3_impounds_additive_not_in_dscr (pp tr ins md : ℚ)
    (i : DealInputs) (m : DealMetrics) (h : analyze_deal i = some m) :
    monthly_impounds true pp tr ins = (annual_taxes pp tr + ins) / 12 ∧
    monthly_total_payment md (monthly_impounds true pp tr ins) =
      md + (annual_taxes pp tr + ins) / 12 ∧
    monthly_impounds false pp tr ins = 0 ∧
    monthly_total_payment md (monthly_impounds false pp tr ins) = md ∧
    m.dscr = (if m.monthly_pi * 12 = 0 then 0 else m.noi / (m.monthly_pi * 12)) := by
  obtain ⟨mp, pr, hmp, hpr, rfl⟩ := (analyze_deal_eq_some_iff i m).1 h
  refine ⟨rfl, rfl, rfl, by simp [monthly_total_payment, monthly_impounds], ?_⟩
  simp [metricsOf]

/-- Witness for C3 at a concrete deal and concrete impound parameters. -/
theorem C3_impounds_additive_not_in_dscr_witness :
    analyze_deal demoInput = some demoOut ∧
    (monthly_impounds true 100 (1/100) 12 = (annual_taxes 100 (1/100) + 12) / 12 ∧
     monthly_total_payment 7 (monthly_impounds true 100 (1/100) 12) =
       7 + (annual_taxes 100 (1/100) + 12) / 12 ∧
     monthly_impounds false 100 (1/100) 12 = 0 ∧
     monthly_total_payment 7 (monthly_impounds false 100 (1/100) 12) = 7 ∧
     demoOut.dscr =
       (if demoOut.monthly_pi * 12 = 0 then 0
        else demoOut.noi / (demoOut.monthly_pi * 12))) :=
  ⟨analyze_demoInput_eval,
   C3_impounds_additive_not_in_dscr 100 (1/100) 12 7 demoInput demoOut
     analyze_demoInput_eval⟩

/-- Claim C4: the returned top-level DSCR is `0` whenever the annual debt
service `monthly_pi * 12` is `0`, and `noi / (monthly_pi * 12)` otherwise. -/
theorem C4_dscr_guard (i : DealInputs) (m : DealMetrics)
    (h : analyze_deal i = some m) :
    (m.monthly_pi * 12 = 0 → m.dscr = 0) ∧
    (m.monthly_pi * 12 ≠ 0 → m.dscr = m.noi / (m.monthly_pi * 12)) := by
  obtain ⟨mp, pr, hmp, hpr, rfl⟩ := (analyze_deal_eq_some_iff i m).1 h
  constructor
  · intro h0
    simp only [metricsOf] at h0 ⊢
    simp [h0]
  · intro h0
    simp only [metricsOf] at h0 ⊢
    simp [h0]

/-- Witness for C4 at a concrete deal. -/
theorem C4_dscr_guard_witness :
    analyze_deal demoInput = some demoOut ∧
    ((demoOut.monthly_pi * 12 = 0 → demoOut.dscr = 0) ∧
     (demoOut.monthly_pi * 12 ≠ 0 →
       demoOut.dscr = demoOut.noi / (demoOut.monthly_pi * 12))) :=
  ⟨analyze_demoInput_eval, C4_dscr_guard demoInput demoOut analyze_demoInput_eval⟩

/-- Claim C5: with rent growth enabled, a successful call returns exactly 10
projection records whose years are strictly increasing from 1 to 10, and
(for valid, non-negative rents and a non-negative growth rate) the grown
total rent `sum(applied_rents) * (1+g)^year` is non-decreasing in the year. -/
theorem C5_projection_shape (i : DealInputs) (m : DealMetrics)
    (h : analyze_deal i = some m) (hg : i.rent_growth_enabled = true) :
    m.projections.length = 10 ∧
    m.projections.map YearProjection.year = [1, 2, 3, 4, 5, 6, 7, 8, 9, 10] ∧
    (0 ≤ i.annual_rent_increase_pct →
      (∀ r ∈ applied_rents i, 0 ≤ r) →
      ∀ y₁ y₂ : ℕ, y₁ ≤ y₂ →
        (applied_rents i).sum * (1 + i.annual_rent_increase_pct) ^ y₁ ≤
          (applied_rents i).sum * (1 + i.annual_rent_increase_pct) ^ y₂) := by
  obtain ⟨mp, pr, hmp, hpr, rfl⟩ := (analyze_deal_eq_some_iff i m).1 h
  rw [projectionsOf?, if_pos hg] at hpr
  have hyears : pr.map YearProjection.year = [1, 2, 3, 4, 5, 6, 7, 8, 9, 10] :=
    projLoop_map_year i _ _ pr hpr
  have hlen : pr.length = 10 := by
    have := congrArg List.length hyears
    simpa using this
  refine ⟨hlen, hyears, ?_⟩
  intro hp hr y₁ y₂ hy
  have hs : 0 ≤ (applied_rents i).sum := List.sum_nonneg hr
  have h1 : (1 : ℚ) ≤ 1 + i.annual_rent_increase_pct := by linarith
  exact mul_le_mul_of_nonneg_left (pow_le_pow_right₀ h1 hy) hs

/-- Witness for C5 at a concrete deal with rent growth enabled. -/
theorem C5_projection_shape_witness :
    analyze_deal demoGrowthInput = some demoGrowthOut ∧
    demoGrowthInput.rent_growth_enabled = true ∧
    (demoGrowthOut.projections.length = 10 ∧
     demoGrowthOut.projections.map YearProjection.year =
       [1, 2, 3, 4, 5, 6, 7, 8, 9, 10] ∧
     (0 ≤ demoGrowthInput.annual_rent_increase_pct →
       (∀ r ∈ applied_rents demoGrowthInput, 0 ≤ r) →
       ∀ y₁ y₂ : ℕ, y₁ ≤ y₂ →
         (applied_rents demoGrowthInput).sum *
             (1 + demoGrowthInput.annual_rent_increase_pct) ^ y₁ ≤
           (applied_rents demoGrowthInput).sum *
             (1 + demoGrowthInput.annual_rent_increase_pct) ^ y₂)) :=
  ⟨analyze_demoGrowthInput_eval, rfl,
   C5_projection_shape demoGrowthInput demoGrowthOut analyze_demoGrowthInput_eval rfl⟩

/-- Claim C6: for interest-only loan products the returned principal paydown
is `0` and the returned monthly debt is exactly
`loan_amount * monthly_interest_rate`. -/
theorem C6_interest_only (i : DealInputs) (m : DealMetrics)
    (hio : (LOAN_PRODUCTS i.loan_product).io = true)
    (h : analyze_deal i = some m) :
    m.principal_paydown = 0 ∧
    m.monthly_pi = loan_amount i * monthly_interest_rate i := by
  obtain ⟨mp, pr, hmp, hpr, rfl⟩ := (analyze_deal_eq_some_iff i m).1 h
  rw [monthlyPi?, if_pos hio] at hmp
  cases hmp
  exact ⟨by simp [metricsOf, hio], by simp [metricsOf]⟩

/-- Witness for C6 at a concrete interest-only deal. -/
theorem C6_interest_only_witness :
    (LOAN_PRODUCTS demoInput.loan_product).io = true ∧
    analyze_deal demoInput = some demoOut ∧
    (demoOut.principal_paydown = 0 ∧
     demoOut.monthly_pi = loan_amount demoInput * monthly_interest_rate demoInput) :=
  ⟨rfl, analyze_demoInput_eval,
   C6_interest_only demoInput demoOut rfl analyze_demoInput_eval⟩

/-- Claim C7: the guarded ratios degrade to a defined `0`: zero purchase
price gives `cap_rate = 0`; zero cash invested gives `coc_return = 0` and
`total_roi = 0`; zero units gives `breakeven_rent = 0` and a zero renovation
contribution to `cash_invested`. -/
theorem C7_guarded_ratios (i : DealInputs) (m : DealMetrics)
    (h : analyze_deal i = some m) :
    (i.purchase_price = 0 → m.cap_rate = 0) ∧
    (m.cash_invested = 0 → m.coc_return = 0 ∧ m.total_roi = 0) ∧
    (units i = 0 → m.breakeven_rent = 0 ∧
      m.cash_invested = i.purchase_price * i.down_payment_pct + i.capex_total) := by
  obtain ⟨mp, pr, hmp, hpr, rfl⟩ := (analyze_deal_eq_some_iff i m).1 h
  refine ⟨?_, ?_, ?_⟩
  · intro h0
    simp [metricsOf, h0]
  · intro h0
    simp only [metricsOf] at h0 ⊢
    simp [h0]
  · intro h0
    simp [metricsOf, h0]

/-- Witness for C7 at a fully degenerate deal (zero price, zero cash
invested, zero units). -/
theorem C7_guarded_ratios_witness :
    analyze_deal degenerateInput = some degenerateOut ∧
    ((degenerateInput.purchase_price = 0 → degenerateOut.cap_rate = 0) ∧
     (degenerateOut.cash_invested = 0 →
       degenerateOut.coc_return = 0 ∧ degenerateOut.total_roi = 0) ∧
     (units degenerateInput = 0 → degenerateOut.breakeven_rent = 0 ∧
       degenerateOut.cash_invested =
         degenerateInput.purchase_price * degenerateInput.down_payment_pct +
           degenerateInput.capex_total)) :=
  ⟨analyze_degenerateInput_eval,
   C7_guarded_ratios degenerateInput degenerateOut analyze_degenerateInput_eval⟩

/-- Claim C8: the returned NOI is exactly `gross_operating_income -
base_expenses`; for valid inputs (non-negative rents and vacancy rate) the
gross operating income never exceeds the gross annual rent; and with the
management override the expenses are the base ratio share plus the fixed 8%
surcharge. -/
theorem C8_noi_and_income (i : DealInputs) (m : DealMetrics)
    (h : analyze_deal i = some m)
    (hv : 0 ≤ i.vacancy_rate)
    (hr : ∀ r ∈ i.rents, 0 ≤ r) (hmr : ∀ r ∈ i.market_rents, 0 ≤ r) :
    m.noi = gross_operating_income i - base_expenses i ∧
    gross_operating_income i ≤ gross_rent_annual i ∧
    (i.mgmt_override = true →
      base_expenses i =
        gross_operating_income i * i.expense_ratio +
          gross_operating_income i * (8 / 100)) := by
  obtain ⟨mp, pr, hmp, hpr, rfl⟩ := (analyze_deal_eq_some_iff i m).1 h
  refine ⟨by simp [metricsOf], ?_, fun hm => by simp [base_expenses, hm]⟩
  have hs : 0 ≤ (applied_rents i).sum := by
    apply List.sum_nonneg
    intro r hr'
    by_cases hu : i.use_market_rents = true
    · rw [applied_rents, if_pos hu] at hr'
      exact hmr r hr'
    · rw [applied_rents, if_neg hu] at hr'
      exact hr r hr'
  have hgra : 0 ≤ gross_rent_annual i := by
    rw [gross_rent_annual]
    have : (0 : ℚ) ≤ 12 := by norm_num
    exact mul_nonneg hs this
  rw [gross_operating_income, vacancy_loss]
  have := mul_nonneg hgra hv
  linarith

/-- Witness for C8 at a concrete deal. -/
theorem C8_noi_and_income_witness :
    analyze_deal demoInput = some demoOut ∧
    0 ≤ demoInput.vacancy_rate ∧
    (∀ r ∈ demoInput.rents, 0 ≤ r) ∧
    (∀ r ∈ demoInput.market_rents, 0 ≤ r) ∧
    (demoOut.noi = gross_operating_income demoInput - base_expenses demoInput ∧
     gross_operating_income demoInput ≤ gross_rent_annual demoInput ∧
     (demoInput.mgmt_override = true →
       base_expenses demoInput =
         gross_operating_income demoInput * demoInput.expense_ratio +
           gross_operating_income demoInput * (8 / 100))) :=
  ⟨analyze_demoInput_eval, by norm_num [demoInput], by norm_num [demoInput],
   by norm_num [demoInput],
   C8_noi_and_income demoInput demoOut analyze_demoInput_eval
     (by norm_num [demoInput]) (by norm_num [demoInput]) (by norm_num [demoInput])⟩

/-- Claim C9: the rent-growth inputs (`rent_growth_enabled`,
`annual_rent_increase_pct`) affect only the projection list; every other
output field of two successful calls that differ only in those two inputs is
identical. -/
theorem C9_growth_inputs_frame (i : DealInputs) (b : Bool) (p : ℚ)
    (m₁ m₂ : DealMetrics)
    (h₁ : analyze_deal i = some m₁)
    (h₂ : analyze_deal
      { i with rent_growth_enabled := b, annual_rent_increase_pct := p } = some m₂) :
    m₁.noi = m₂.noi ∧ m₁.dscr = m₂.dscr ∧
    m₁.annual_cash_flow = m₂.annual_cash_flow ∧
    m₁.cap_rate = m₂.cap_rate ∧ m₁.coc_return = m₂.coc_return ∧
    m₁.total_roi = m₂.total_roi ∧ m₁.breakeven_rent = m₂.breakeven_rent ∧
    m₁.monthly_pi = m₂.monthly_pi ∧ m₁.cash_invested = m₂.cash_invested ∧
    m₁.principal_paydown = m₂.principal_paydown := by
  obtain ⟨mp₁, pr₁, hmp₁, hpr₁, rfl⟩ := (analyze_deal_eq_some_iff _ _).1 h₁
  obtain ⟨mp₂, pr₂, hmp₂, hpr₂, rfl⟩ := (analyze_deal_eq_some_iff _ _).1 h₂
  have hmp : monthlyPi?
      { i with rent_growth_enabled := b, annual_rent_increase_pct := p } =
      monthlyPi? i := rfl
  rw [hmp, hmp₁] at hmp₂
  cases hmp₂
  exact ⟨rfl, rfl, rfl, rfl, rfl, rfl, rfl, rfl, rfl, rfl⟩

/-- Witness for C9: the demo deal with and without rent growth enabled. -/
theorem C9_growth_inputs_frame_witness :
    analyze_deal demoInput = some demoOut ∧
    analyze_deal
      { demoInput with rent_growth_enabled := true, annual_rent_increase_pct := 0 } =
      some demoGrowthOut ∧
    (demoOut.noi = demoGrowthOut.noi ∧ demoOut.dscr = demoGrowthOut.dscr ∧
     demoOut.annual_cash_flow = demoGrowthOut.annual_cash_flow ∧
     demoOut.cap_rate = demoGrowthOut.cap_rate ∧
     demoOut.coc_return = demoGrowthOut.coc_return ∧
     demoOut.total_roi = demoGrowthOut.total_roi ∧
     demoOut.breakeven_rent = demoGrowthOut.breakeven_rent ∧
     demoOut.monthly_pi = demoGrowthOut.monthly_pi ∧
     demoOut.cash_invested = demoGrowthOut.cash_invested ∧
     demoOut.principal_paydown = demoGrowthOut.principal_paydown) :=
  ⟨analyze_demoInput_eval, analyze_demoGrowthInput_eval,
   C9_growth_inputs_frame demoInput true 0 demoOut demoGrowthOut
     analyze_demoInput_eval analyze_demoGrowthInput_eval⟩

/-- Claim C10: when current and market rents coincide element-wise, the
entire analyzer output is independent of `use_market_rents`. -/
theorem C10_market_rents_irrelevant (i : DealInputs)
    (h : i.rents = i.market_rents) :
    analyze_deal { i with use_market_rents := true } =
      analyze_deal { i with use_market_rents := false } := by
  have ha : applied_rents { i with use_market_rents := true } =
      applied_rents { i with use_market_rents := false } := by
    simp [applied_rents, h]
  have hgoi : gross_operating_income { i with use_market_rents := true } =
      gross_operating_income { i with use_market_rents := false } := by
    simp [gross_operating_income, gross_rent_annual, vacancy_loss, ha]
  have hbe : base_expenses { i with use_market_rents := true } =
      base_expenses { i with use_market_rents := false } := by
    simp [base_expenses, hgoi]
  have hmp : monthlyPi? { i with use_market_rents := true } =
      monthlyPi? { i with use_market_rents := false } := rfl
  have hstep : ∀ a y, projStep { i with use_market_rents := true } a y =
      projStep { i with use_market_rents := false } a y := by
    intro a y
    simp [projStep, futureNoi, ha]
  have hloop : ∀ a ys, projLoop { i with use_market_rents := true } a ys =
      projLoop { i with use_market_rents := false } a ys := by
    intro a ys
    induction ys with
    | nil => rfl
    | cons y ys ih => simp [projLoop, hstep, ih]
  have hproj : ∀ a, projectionsOf? { i with use_market_rents := true } a =
      projectionsOf? { i with use_market_rents := false } a := by
    intro a
    simp [projectionsOf?, hloop]
  have hmir : monthly_interest_rate { i with use_market_rents := true } =
      monthly_interest_rate { i with use_market_rents := false } := rfl
  have hla : loan_amount { i with use_market_rents := true } =
      loan_amount { i with use_market_rents := false } := rfl
  have hun : units { i with use_market_rents := true } =
      units { i with use_market_rents := false } := rfl
  have hmet : ∀ mp pr, metricsOf { i with use_market_rents := true } mp pr =
      metricsOf { i with use_market_rents := false } mp pr := by
    intro mp pr
    simp [metricsOf, hgoi, hbe, hmir, hla, hun]
  unfold analyze_deal
  simp only [hmp, hproj, hmet]

/-- Witness for C10 at a concrete deal whose current and market rents agree. -/
theorem C10_market_rents_irrelevant_witness :
    demoEqualRentsInput.rents = demoEqualRentsInput.market_rents ∧
    analyze_deal { demoEqualRentsInput with use_market_rents := true } =
      analyze_deal { demoEqualRentsInput with use_market_rents := false } :=
  ⟨rfl, C10_market_rents_irrelevant demoEqualRentsInput rfl⟩

end DealAnalyzer
